import Mathlib

/-!
Verification of the collision-grid and particle-simulation core of the
`prim` 2D engine (`src/collision.rs`, `src/particle_system/systems.rs`).

Embedding conventions:
* Rust `f32` values are modelled as exact rationals `ℚ` (the algorithms are
  numerically straightforward; no claim hinges on float rounding).
* Rust `i32`/`usize` are modelled as `ℤ`/`ℕ`; the code under verification
  never relies on wrap-around, so no modular reduction is applied.
* `f32::floor` is `Int.floor`; the Rust cast `f32 as i32` truncates toward
  zero and is modelled by `ratTrunc`; `f32 as usize` saturates at zero and
  is modelled by `ratToUsize`.
* Rust `%` on `i32` (remainder with the sign of the dividend) is `Int.tmod`,
  and Rust `/` on `i32` (truncating division) is `Int.tdiv`.
-/

namespace Prim

/-- Rust cast `f32 as i32`: truncation toward zero (saturation at the `i32`
range is not modelled; the inputs of interest stay far inside it). -/
def ratTrunc (q : ℚ) : ℤ :=
  if 0 ≤ q then ⌊q⌋ else -⌊-q⌋

/-- Rust cast `f32 as usize`: truncation toward zero, negative values
saturating to `0`. -/
def ratToUsize (q : ℚ) : ℕ :=
  (ratTrunc q).toNat

/-- Type `glam::Vec2` with exact coordinates. -/
structure Vec2 where
  x : ℚ
  y : ℚ
deriving DecidableEq

/-- Type `glam::Vec4` with exact coordinates. -/
structure Vec4 where
  x : ℚ
  y : ℚ
  z : ℚ
  w : ℚ
deriving DecidableEq

/-- From `instance.rs`: outline rendering data (irrelevant to collision logic). -/
structure Outline where
  scale : ℚ
  color : Vec4
deriving DecidableEq

/-- From `instance.rs`: `Instance2D`, the renderable snapshot of an entity. -/
structure Instance2D where
  position : Vec2
  rotation : ℚ
  scale : Vec2
  color : Vec4
  shape : ℕ
  outline : Option Outline
deriving DecidableEq

/-- From `collision.rs` `round_to_nearest`, the absolute-value core:
`res = (i as i32).abs() + incr / 2; res -= res % incr`. -/
def roundAbs (i : ℚ) (incr : ℤ) : ℤ :=
  |ratTrunc i| + incr.tdiv 2 - (|ratTrunc i| + incr.tdiv 2).tmod incr

/-- From `collision.rs` `round_to_nearest(i: f32, incr: i32) -> i32`:
round `|i|` (truncated to an integer) up to the nearest multiple of `incr`
on the half-boundary, then restore the sign of `i`. -/
def round_to_nearest (i : ℚ) (incr : ℤ) : ℤ :=
  if i < 0 then -roundAbs i incr else roundAbs i incr

/-- From `collision.rs` `HashGridVec::current_hash_grid` for `Vec2`. -/
def current_hash_grid (v : Vec2) (grid_size : ℤ) : ℤ × ℤ :=
  (round_to_nearest v.x grid_size, round_to_nearest v.y grid_size)

/-- From `collision.rs` `HashMarker::get_with_neighbors`: the entity's cell plus
its 8 neighboring cells, stepped by `grid_size` per axis. -/
def get_with_neighbors (m : ℤ × ℤ) (grid_size : ℤ) : List (ℤ × ℤ) :=
  [ m,
    (m.1, m.2 + grid_size),
    (m.1, m.2 - grid_size),
    (m.1 + grid_size, m.2),
    (m.1 - grid_size, m.2),
    (m.1 + grid_size, m.2 - grid_size),
    (m.1 + grid_size, m.2 + grid_size),
    (m.1 - grid_size, m.2 - grid_size),
    (m.1 - grid_size, m.2 + grid_size) ]

/-- From `collision.rs` `overlapping(a, b)`: separating-axis test on the
axis-aligned bounding boxes `position ± scale/2` (rotation ignored). -/
def overlapping (a b : Instance2D) : Prop :=
  a.position.x - a.scale.x / 2 < b.position.x + b.scale.x / 2 ∧
  a.position.x + a.scale.x / 2 > b.position.x - b.scale.x / 2 ∧
  a.position.y + a.scale.y / 2 > b.position.y - b.scale.y / 2 ∧
  a.position.y - a.scale.y / 2 < b.position.y + b.scale.y / 2

instance (a b : Instance2D) : Decidable (overlapping a b) := by
  unfold overlapping
  infer_instance

/-- One row of the `collisions::<T>` queries: an entity id together with its
`Instance2D` and `HashMarker` components. -/
structure CollisionEntry where
  entity : ℕ
  inst : Instance2D
  cell : ℤ × ℤ
deriving DecidableEq

/-- The bucket map `m` built by `collisions::<T>` from the `CollidesWith<T>`
query: the entries whose `HashMarker` equals `c`, in query order (the map
preserves per-key insertion order; a missing key behaves as `[]`). -/
def cellBucket (collide_with : List CollisionEntry) (c : ℤ × ℤ) : List CollisionEntry :=
  collide_with.filter fun b => decide (b.cell = c)

/-- The collision list gathered for one `Collider<T>` entity in
`collisions::<T>`: walk the 9 cells of `get_with_neighbors`, and in each
bucket keep the entities whose bounding box overlaps. -/
def collisionsFor (collide_with : List CollisionEntry) (grid_size : ℤ)
    (e : CollisionEntry) : List ℕ :=
  (get_with_neighbors e.cell grid_size).flatMap fun c =>
    ((cellBucket collide_with c).filter fun b => decide (overlapping e.inst b.inst)).map
      fun b => b.entity

/-- The `Colliding<T>` component written back for one collider:
`none` models `remove::<Colliding<T>>()` (empty collision list), `some l`
models `insert(Colliding(l))`. -/
def collidingResult (collide_with : List CollisionEntry) (grid_size : ℤ)
    (e : CollisionEntry) : Option (List ℕ) :=
  if (collisionsFor collide_with grid_size e).isEmpty then none
  else some (collisionsFor collide_with grid_size e)

/-- From `collision.rs` `collisions::<T>`: the per-collider results of one pass,
keyed by collider entity id. -/
def collisions (colliders collide_with : List CollisionEntry) (grid_size : ℤ) :
    List (ℕ × Option (List ℕ)) :=
  colliders.map fun e => (e.entity, collidingResult collide_with grid_size e)

/-! ### Particle simulation (`src/particle_system/systems.rs`)

The component/configuration declarations (`particle_system/components.rs`,
`particle_system/values.rs`) are not among the sources; only their fields as
used by `systems.rs` are modelled, and the value-curve type is modelled from
the spec. The systems themselves are translated from `systems.rs`. -/

/-- Modelled from the spec: a value curve (`ValueOverTime`, absent
`values.rs`) only enters the spawner through `at_lifetime_pct`, so it is
modelled extensionally as that evaluation function. -/
def ValueOverTime : Type := ℚ → ℚ

/-- Modelled from the spec: one burst entry, a `(time-offset, count)` pair
(`Burst` of the absent `components.rs`; `systems.rs` reads exactly the
fields `time` and `count`). -/
structure Burst where
  time : ℚ
  count : ℕ

/-- The `ParticleSystem` configuration component, restricted to the fields
the spawner's control flow reads. The fields that only feed the random
per-particle attribute sampling (`emitter_shape`, `emitter_angle`,
`spawn_radius`, `initial_velocity`, `lifetime`, `scale`, `color`,
`shape_id`, `acceleration`) are not modelled: they never influence spawn
counts, run state, or destruction. -/
structure ParticleSystem where
  max_particles : ℕ
  spawn_rate_per_second : ValueOverTime
  looping : Bool
  system_duration_seconds : ℚ
  bursts : List Burst
  max_distance : Option ℚ
  use_scaled_time : Bool
  despawn_on_finish : Bool

/-- The `RunningState` component of an emitter (fields as used by
`systems.rs`; `current_second` is an `f32` holding a floor value). -/
structure RunningState where
  running_time : ℚ
  current_second : ℚ
  spawned_this_second : ℕ
deriving DecidableEq

/-- What the spawner does to the emitter entity itself this frame. -/
inductive EmitterAction where
  | keep
  | despawn
  | removePlaying
deriving DecidableEq

/-- The outcome of one `particle_spawner` iteration for one emitter:
the command applied to the emitter entity, the new `ParticleCount`,
`RunningState` and `BurstIndex`, and the two spawn tallies
(`to_spawn` rate-driven, `extra` burst-driven); the loop spawns
`to_spawn + extra` particle entities. The random per-particle attributes
are outside the model. -/
structure SpawnerResult where
  action : EmitterAction
  count : ℕ
  rs : RunningState
  burst_index : ℕ
  to_spawn : ℕ
  extra : ℕ
deriving DecidableEq

/-- From `systems.rs:55-59`: resolve the effective time scale: the global
`TimeScale` resource if present and `use_scaled_time` is set, else `1`. -/
def resolvedTimeScale (ps : ParticleSystem) (time_scale : Option ℚ) : ℚ :=
  if ps.use_scaled_time then
    match time_scale with
    | some t => t
    | none => 1
  else 1

/-- From `systems.rs:62-65`: when the running time has crossed into a new integer
second, remember it and reset the per-second spawn counter. -/
def secondRollover (rs : RunningState) : RunningState :=
  if (⌊rs.running_time⌋ : ℚ) > rs.current_second + 1/2 then
    { rs with current_second := (⌊rs.running_time⌋ : ℚ), spawned_this_second := 0 }
  else rs

/-- From `systems.rs:60-65`: advance `running_time` by the scaled delta, then
apply the integer-second rollover. -/
def advanceTime (ps : ParticleSystem) (rs : RunningState) (dt : ℚ)
    (time_scale : Option ℚ) : RunningState :=
  secondRollover { rs with running_time := rs.running_time + dt * resolvedTimeScale ps time_scale }

/-- From `systems.rs:68-72` looping case: wrap the running time by one duration,
re-floor the current second, reset the per-second counter. -/
def wrapState (ps : ParticleSystem) (rs : RunningState) : RunningState :=
  { running_time := rs.running_time - ps.system_duration_seconds,
    current_second := (⌊rs.running_time - ps.system_duration_seconds⌋ : ℚ),
    spawned_this_second := 0 }

/-- From `systems.rs:89-91`: the spawn rate sampled at the system's life
percentage `running_time / system_duration_seconds`. -/
def currentSpawnRate (ps : ParticleSystem) (rs : RunningState) : ℚ :=
  ps.spawn_rate_per_second (rs.running_time / ps.system_duration_seconds)

/-- From `systems.rs:90`: `(max_particles - particle_count) as f32` (reached only
when `particle_count < max_particles`, so the `usize` subtraction is exact). -/
def remainingParticles (ps : ParticleSystem) (count : ℕ) : ℚ :=
  ((ps.max_particles - count : ℕ) : ℚ)

/-- From `systems.rs:92-97`: the rate-driven spawn request
`((running_time - running_time.floor()) * current_spawn_rate -
spawned_this_second).floor().min(remaining).max(0.0) as usize`. -/
def toSpawnRaw (ps : ParticleSystem) (count : ℕ) (rs : RunningState) : ℕ :=
  ratToUsize (max (min
    ((⌊(rs.running_time - (⌊rs.running_time⌋ : ℚ)) * currentSpawnRate ps rs
        - (rs.spawned_this_second : ℚ)⌋ : ℚ))
    (remainingParticles ps count)) 0)

/-- From `systems.rs:99-107`: consume at most the single burst entry at
`burst_index`, if its time offset has been reached. Returns
`(extra, new burst_index)`. -/
def burstExtra (ps : ParticleSystem) (rs : RunningState) (bi : ℕ) : ℕ × ℕ :=
  if ps.bursts.isEmpty then (0, bi)
  else
    match ps.bursts.get? bi with
    | some current_burst =>
        if rs.running_time ≥ current_burst.time then (current_burst.count, bi + 1) else (0, bi)
    | none => (0, bi)

/-- From `systems.rs:108-114`: force a single spawn when the rate-driven request
is zero, nothing has spawned this second, capacity remains and the rate is
strictly positive. -/
def forcedToSpawn (ps : ParticleSystem) (count : ℕ) (rs : RunningState) (t0 : ℕ) : ℕ :=
  if t0 = 0 ∧ rs.spawned_this_second = 0 ∧ count < ps.max_particles ∧
      currentSpawnRate ps rs > 0 then 1
  else t0

/-- From `systems.rs:89-149`: the spawn-count computation and state writeback,
reached when the emitter is below capacity this frame. -/
def spawnCompute (ps : ParticleSystem) (count : ℕ) (rs : RunningState) (bi : ℕ) :
    SpawnerResult :=
  let t0 := toSpawnRaw ps count rs
  let eb := burstExtra ps rs bi
  let t := forcedToSpawn ps count rs t0
  if t = 0 ∧ eb.1 = 0 then
    { action := .keep, count := count, rs := rs, burst_index := eb.2, to_spawn := 0, extra := 0 }
  else
    { action := .keep,
      count := count + t + eb.1,
      rs := { rs with spawned_this_second := rs.spawned_this_second + t },
      burst_index := eb.2,
      to_spawn := t,
      extra := eb.1 }

/-- From `systems.rs:85-87`: skip spawning entirely at or above capacity. -/
def capacityAndSpawn (ps : ParticleSystem) (count : ℕ) (rs : RunningState) (bi : ℕ) :
    SpawnerResult :=
  if count ≥ ps.max_particles then
    { action := .keep, count := count, rs := rs, burst_index := bi, to_spawn := 0, extra := 0 }
  else spawnCompute ps count rs bi

/-- From `systems.rs:67-83`: duration check. A looping system wraps and keeps
spawning; a finished non-looping system despawns or pauses when it has no
live particles, and otherwise just skips spawning. -/
def loopCheck (ps : ParticleSystem) (count : ℕ) (rs : RunningState) (bi : ℕ) :
    SpawnerResult :=
  if rs.running_time ≥ ps.system_duration_seconds then
    if ps.looping then capacityAndSpawn ps count (wrapState ps rs) 0
    else
      { action :=
          if count = 0 then
            (if ps.despawn_on_finish then .despawn else .removePlaying)
          else .keep,
        count := count, rs := rs, burst_index := bi, to_spawn := 0, extra := 0 }
  else capacityAndSpawn ps count rs bi

/-- From `systems.rs` `particle_spawner`, one iteration for one `Playing`
emitter. -/
def particle_spawner (ps : ParticleSystem) (count : ℕ) (rs : RunningState) (bi : ℕ)
    (dt : ℚ) (time_scale : Option ℚ) : SpawnerResult :=
  loopCheck ps count (advanceTime ps rs dt time_scale) bi

/-- The per-particle components read by the aging/cleanup systems:
`Particle { max_lifetime, max_distance }`, `Lifetime`, `DistanceTraveled`
(all belonging to one emitter, whose lookup by `parent_system` succeeds). -/
structure ParticleData where
  max_lifetime : ℚ
  max_distance : Option ℚ
  lifetime : ℚ
  distance : ℚ
deriving DecidableEq

/-- From `systems.rs:231-232`: the cleanup destruction test:
`lifetime >= max_lifetime || (max_distance.is_some() && distance >= max_distance.unwrap())`. -/
def shouldDestroy (p : ParticleData) : Prop :=
  p.lifetime ≥ p.max_lifetime ∨
    (p.max_distance.isSome = true ∧ p.distance ≥ p.max_distance.iget)

instance (p : ParticleData) : Decidable (shouldDestroy p) := by
  unfold shouldDestroy
  infer_instance

/-- From `systems.rs` `particle_cleanup` over one emitter's particles: destroy
each particle meeting `shouldDestroy`, decrementing the emitter's
`ParticleCount` for each destruction unless it is already `0`. Returns the
final count and the surviving particles. -/
def particle_cleanup (count : ℕ) : List ParticleData → ℕ × List ParticleData
  | [] => (count, [])
  | p :: rest =>
    if shouldDestroy p then
      particle_cleanup (if 0 < count then count - 1 else count) rest
    else
      ((particle_cleanup count rest).1, p :: (particle_cleanup count rest).2)

/-- From `systems.rs` `particle_lifetime` over one emitter's particles: advance
every particle's `Lifetime` by the frame delta, scaled by the global
`TimeScale` resource when present and the parent emitter opted in
(the query is not gated on the parent's `Playing` marker). -/
def particle_lifetime (use_scaled_time : Bool) (dt : ℚ) (time_scale : Option ℚ)
    (particles : List ParticleData) : List ParticleData :=
  particles.map fun p =>
    { p with lifetime := p.lifetime + dt *
        (match time_scale with
         | some t => if use_scaled_time then t else 1
         | none => 1) }

/-- One frame of emitter bookkeeping in the spec's system order
(`spawn → … → cleanup`; spawned entities materialize after the stage, so
cleanup scans the pre-existing particles): the emitter's `ParticleCount`
after the frame. -/
def frameCount (ps : ParticleSystem) (count : ℕ) (rs : RunningState) (bi : ℕ)
    (dt : ℚ) (time_scale : Option ℚ) (particles : List ParticleData) : ℕ :=
  (particle_cleanup (particle_spawner ps count rs bi dt time_scale).count particles).1

/-! ### Auxiliary definitions for statements and concrete checks -/

/-- Shift an instance along the x axis: the "move inward by `ε`" operation
of the overlap-boundary property. -/
def moveX (i : Instance2D) (d : ℚ) : Instance2D :=
  { i with position := { i.position with x := i.position.x + d } }

/-- An axis-aligned `2 × 2` box centered at `(x, y)`, used as a concrete
instance in witnesses. -/
def unitBoxAt (x y : ℚ) : Instance2D :=
  { position := ⟨x, y⟩, rotation := 0, scale := ⟨2, 2⟩,
    color := ⟨0, 0, 0, 0⟩, shape := 0, outline := none }

/-- A concrete particle-system configuration with a constant spawn rate,
used in witnesses and counterexamples. -/
def sampleSystem (mx : ℕ) (rate : ℚ) (loop : Bool) (dur : ℚ) (bursts : List Burst) :
    ParticleSystem :=
  { max_particles := mx,
    spawn_rate_per_second := fun _ => rate,
    looping := loop,
    system_duration_seconds := dur,
    bursts := bursts,
    max_distance := none,
    use_scaled_time := false,
    despawn_on_finish := false }

/-- The non-burst spawn count as the spec words it (refinement comparison
definition, phrased from the spec, not from the code): desired spawns =
`floor(fractional_second_progress * spawn_rate_at_pct) -
already_spawned_this_second`, clamped to `[0, max_particles - count]`,
with a forced single spawn when that is zero, nothing has spawned this
second, the rate is strictly positive and capacity remains. -/
def specNonBurstSpawnCount (ps : ParticleSystem) (count : ℕ) (rs : RunningState) : ℕ :=
  let rate := ps.spawn_rate_per_second (rs.running_time / ps.system_duration_seconds)
  let desired : ℤ :=
    ⌊(rs.running_time - (⌊rs.running_time⌋ : ℚ)) * rate⌋ - (rs.spawned_this_second : ℤ)
  let clamped : ℤ := min (max desired 0) ((ps.max_particles : ℤ) - (count : ℤ))
  if clamped = 0 ∧ rs.spawned_this_second = 0 ∧ 0 < rate ∧ count < ps.max_particles then 1
  else clamped.toNat

/-! ### Basic facts about the numeric casts -/

theorem ratTrunc_intCast (z : ℤ) : ratTrunc (z : ℚ) = z := by
  unfold ratTrunc
  rcases le_or_lt 0 (z : ℚ) with h | h
  · rw [if_pos h, Int.floor_intCast]
  · rw [if_neg (not_le.mpr h), ← Int.cast_neg, Int.floor_intCast, neg_neg]

theorem ratToUsize_natCast (n : ℕ) : ratToUsize (n : ℚ) = n := by
  unfold ratToUsize
  rw [show ((n : ℚ)) = ((n : ℤ) : ℚ) by push_cast; ring, ratTrunc_intCast, Int.toNat_natCast]

theorem ratTrunc_neg (q : ℚ) : ratTrunc (-q) = -ratTrunc q := by
  unfold ratTrunc
  rcases lt_trichotomy q 0 with h | h | h
  · rw [if_pos (by linarith), if_neg (not_le.mpr h), neg_neg]
  · subst h; norm_num
  · rw [if_neg (by simpa using not_le.mpr h), if_pos h.le, neg_neg]

/-! ### Rounding to the grid (claim C5) -/

theorem roundAbs_neg (q : ℚ) (g : ℤ) : roundAbs (-q) g = roundAbs q g := by
  unfold roundAbs
  rw [ratTrunc_neg, abs_neg]

theorem roundAbs_dvd (q : ℚ) (g : ℤ) : g ∣ roundAbs q g := by
  unfold roundAbs
  refine ⟨(|ratTrunc q| + g.tdiv 2).tdiv g, ?_⟩
  have h := Int.tdiv_add_tmod (|ratTrunc q| + g.tdiv 2) g
  omega

theorem roundAbs_zeroRat (g : ℤ) (hg : 0 < g) : roundAbs 0 g = 0 := by
  unfold roundAbs
  have h0 : ratTrunc 0 = 0 := by
    simpa using ratTrunc_intCast 0
  rw [h0]
  have hd2 : g.tdiv 2 = g / 2 := Int.tdiv_eq_ediv hg.le (by norm_num)
  have h1 : (0 : ℤ) ≤ g.tdiv 2 := Int.tdiv_nonneg hg.le (by norm_num)
  have h2 : g.tdiv 2 < g := by
    rw [hd2]; omega
  rw [abs_zero, zero_add, Int.tmod_eq_of_lt h1 h2]
  omega

/-- Claim C5: `round_to_nearest` always returns a multiple of the (positive)
grid size, negating the input negates the result, and the three concrete
evaluations from the spec hold (`249.9` is the exact rational `2499/10`;
the `f32` nearest to it truncates to the same integer `249`). -/
theorem round_to_nearest_props (x : ℚ) (g : ℤ) (hg : 0 < g) :
    g ∣ round_to_nearest x g ∧
    round_to_nearest (-x) g = -round_to_nearest x g ∧
    round_to_nearest 250 100 = 300 ∧
    round_to_nearest (2499/10) 100 = 200 ∧
    round_to_nearest (-250) 100 = -300 := by
  have habs250 : roundAbs 250 100 = 300 := by
    unfold roundAbs
    rw [show ((250 : ℚ)) = ((250 : ℤ) : ℚ) by norm_num, ratTrunc_intCast]
    decide
  have habs2499 : roundAbs (2499/10) 100 = 200 := by
    unfold roundAbs
    have : ratTrunc (2499/10) = 249 := by
      unfold ratTrunc
      rw [if_pos (by norm_num)]
      norm_num [Int.floor_eq_iff]
    rw [this]
    decide
  refine ⟨?_, ?_, ?_, ?_, ?_⟩
  · unfold round_to_nearest
    split
    · exact Dvd.dvd.neg_right (roundAbs_dvd x g)
    · exact roundAbs_dvd x g
  · unfold round_to_nearest
    rcases lt_trichotomy x 0 with h | h | h
    · rw [if_neg (by linarith), if_pos h, roundAbs_neg, neg_neg]
    · subst h
      norm_num [roundAbs_zeroRat g hg]
    · rw [if_pos (by linarith), if_neg (by linarith), roundAbs_neg]
  · unfold round_to_nearest
    rw [if_neg (by norm_num), habs250]
  · unfold round_to_nearest
    rw [if_neg (by norm_num), habs2499]
  · unfold round_to_nearest
    rw [if_pos (by norm_num), roundAbs_neg, habs250]

theorem round_to_nearest_props_witness :
    (100 : ℤ) ∣ round_to_nearest 250 100 ∧
    round_to_nearest (-250) 100 = -round_to_nearest 250 100 ∧
    round_to_nearest 250 100 = 300 ∧
    round_to_nearest (2499/10) 100 = 200 ∧
    round_to_nearest (-250) 100 = -300 :=
  round_to_nearest_props 250 100 (by decide)

/-! ### Neighbor cells (claim C6) -/

/-- Claim C6: for a positive grid size, `get_with_neighbors` returns exactly
9 pairwise-distinct coordinates: the cell itself, its 4 axis-aligned
neighbors at offset `g`, and its 4 diagonal neighbors. -/
theorem get_with_neighbors_nine (c : ℤ × ℤ) (g : ℤ) (hg : 0 < g) :
    (get_with_neighbors c g).length = 9 ∧
    (get_with_neighbors c g).Nodup ∧
    get_with_neighbors c g =
      [c, (c.1, c.2 + g), (c.1, c.2 - g), (c.1 + g, c.2), (c.1 - g, c.2),
       (c.1 + g, c.2 - g), (c.1 + g, c.2 + g), (c.1 - g, c.2 - g), (c.1 - g, c.2 + g)] := by
  refine ⟨rfl, ?_, rfl⟩
  have hc : c = (c.1, c.2) := rfl
  rw [hc]
  have hne : g ≠ 0 := hg.ne'
  simp [get_with_neighbors, List.nodup_cons, Prod.ext_iff, hne]
  omega

theorem get_with_neighbors_nine_witness :
    (get_with_neighbors (0, 0) 100).length = 9 ∧
    (get_with_neighbors (0, 0) 100).Nodup ∧
    get_with_neighbors (0, 0) 100 =
      [(0, 0), ((0:ℤ), (0:ℤ) + 100), (0, 0 - 100), (0 + 100, 0), (0 - 100, 0),
       (0 + 100, 0 - 100), (0 + 100, 0 + 100), (0 - 100, 0 - 100), (0 - 100, 0 + 100)] :=
  get_with_neighbors_nine (0, 0) 100 (by decide)

/-! ### Overlap boundary (claim C7) -/

/-- Counterexample to claim C7 as stated: two `2 × 2` boxes touching exactly
at an edge (`a.maxX = 1 = b.minX`) are not overlapping, yet moving `a`
inward (toward `b`) by the positive epsilon `100` still does not make them
overlap — `a` passes entirely through `b` — so "any positive epsilon" is
false. -/
theorem overlap_boundary_counterexample :
    (unitBoxAt 0 0).position.x + (unitBoxAt 0 0).scale.x / 2 =
      (unitBoxAt 2 0).position.x - (unitBoxAt 2 0).scale.x / 2 ∧
    ¬ overlapping (unitBoxAt 0 0) (unitBoxAt 2 0) ∧
    (0 : ℚ) < 100 ∧
    ¬ overlapping (moveX (unitBoxAt 0 0) 100) (unitBoxAt 2 0) := by
  refine ⟨by norm_num [unitBoxAt], ?_, by norm_num, ?_⟩
  · intro h
    have h2 := h.2.1
    norm_num [unitBoxAt] at h2
  · intro h
    have h1 := h.1
    norm_num [unitBoxAt, moveX] at h1

/-- Claim C7 amended: boxes touching exactly along an edge (`a.maxX = b.minX`
with the `y` extents genuinely overlapping) are not overlapping, and moving
either box inward by an epsilon that is positive but smaller than the two
widths combined (so the box does not pass entirely through the other) makes
`overlapping` hold. -/
theorem overlap_boundary (a b : Instance2D) (ε : ℚ)
    (htouch : a.position.x + a.scale.x / 2 = b.position.x - b.scale.x / 2)
    (hy1 : a.position.y + a.scale.y / 2 > b.position.y - b.scale.y / 2)
    (hy2 : a.position.y - a.scale.y / 2 < b.position.y + b.scale.y / 2)
    (hε : 0 < ε) (hεlt : ε < a.scale.x + b.scale.x) :
    ¬ overlapping a b ∧
    overlapping (moveX a ε) b ∧
    overlapping a (moveX b (-ε)) := by
  unfold overlapping moveX
  dsimp only
  refine ⟨?_, ⟨?_, ?_, ?_, ?_⟩, ⟨?_, ?_, ?_, ?_⟩⟩
  · intro h
    obtain ⟨h1, h2, h3, h4⟩ := h
    linarith
  all_goals linarith

theorem overlap_boundary_witness :
    ¬ overlapping (unitBoxAt 0 0) (unitBoxAt 2 0) ∧
    overlapping (moveX (unitBoxAt 0 0) 1) (unitBoxAt 2 0) ∧
    overlapping (unitBoxAt 0 0) (moveX (unitBoxAt 2 0) (-1)) :=
  overlap_boundary (unitBoxAt 0 0) (unitBoxAt 2 0) 1
    (by norm_num [unitBoxAt]) (by norm_num [unitBoxAt]) (by norm_num [unitBoxAt])
    (by norm_num) (by norm_num [unitBoxAt])

/-! ### The collision pass (claims C2 and C9) -/

/-- Claim C2: after the `collisions::<T>` pass, a collider's collision list
contains exactly the `CollidesWith<T>` entities found in its own cell or one
of the 8 neighbor cells whose bounding box overlaps it; `Colliding<T>` is
written back as `some` of that list when it is non-empty and removed
(`none`) otherwise, for every collider in the query. -/
theorem collisions_characterize (cw : List CollisionEntry) (g : ℤ) (e : CollisionEntry) :
    (∀ x : ℕ, x ∈ collisionsFor cw g e ↔
       ∃ b, b ∈ cw ∧ b.entity = x ∧ b.cell ∈ get_with_neighbors e.cell g ∧
         overlapping e.inst b.inst) ∧
    (collidingResult cw g e = none ↔
       ¬ ∃ b, b ∈ cw ∧ b.cell ∈ get_with_neighbors e.cell g ∧ overlapping e.inst b.inst) ∧
    (∀ colliders : List CollisionEntry, collisions colliders cw g =
       colliders.map fun c => (c.entity, collidingResult cw g c)) := by
  have hmem : ∀ x : ℕ, x ∈ collisionsFor cw g e ↔
      ∃ b, b ∈ cw ∧ b.entity = x ∧ b.cell ∈ get_with_neighbors e.cell g ∧
        overlapping e.inst b.inst := by
    intro x
    simp only [collisionsFor, cellBucket, List.mem_flatMap, List.mem_map, List.mem_filter,
      decide_eq_true_eq]
    constructor
    · rintro ⟨c, hc, b, ⟨⟨hbcw, hcell⟩, hov⟩, hent⟩
      exact ⟨b, hbcw, hent, hcell ▸ hc, hov⟩
    · rintro ⟨b, hbcw, hent, hcellmem, hov⟩
      exact ⟨b.cell, hcellmem, b, ⟨⟨hbcw, rfl⟩, hov⟩, hent⟩
  refine ⟨hmem, ?_, fun _ => rfl⟩
  unfold collidingResult
  split
  · next hemp =>
    rw [List.isEmpty_iff] at hemp
    simp only [true_iff]
    rintro ⟨b, hbcw, hcell, hov⟩
    have : b.entity ∈ collisionsFor cw g e := (hmem b.entity).mpr ⟨b, hbcw, rfl, hcell, hov⟩
    rw [hemp] at this
    exact absurd this (List.not_mem_nil _)
  · next hemp =>
    rw [List.isEmpty_iff] at hemp
    simp only [reduceCtorEq, false_iff, not_not]
    obtain ⟨x, hx⟩ := List.exists_mem_of_ne_nil _ hemp
    obtain ⟨b, hbcw, _, hcell, hov⟩ := (hmem x).mp hx
    exact ⟨b, hbcw, hcell, hov⟩

/-- Claim C9: an entity that is both a `Collider<T>` and a `CollidesWith<T>`
(thus sharing one `Instance2D` and one `HashMarker`) with strictly positive
scale on both axes overlaps itself and its own cell is among the 9 looked
up, so the pass reports it colliding with itself. -/
theorem self_collision (cw : List CollisionEntry) (g : ℤ) (e : CollisionEntry)
    (hmem : e ∈ cw) (hx : 0 < e.inst.scale.x) (hy : 0 < e.inst.scale.y) :
    e.entity ∈ collisionsFor cw g e ∧
    ∃ l, collidingResult cw g e = some l ∧ e.entity ∈ l := by
  have hov : overlapping e.inst e.inst := by
    unfold overlapping
    refine ⟨by linarith, by linarith, by linarith, by linarith⟩
  have hcell : e.cell ∈ get_with_neighbors e.cell g := by
    unfold get_with_neighbors
    exact List.mem_cons_self _ _
  have hin : e.entity ∈ collisionsFor cw g e := by
    simp only [collisionsFor, cellBucket, List.mem_flatMap, List.mem_map, List.mem_filter,
      decide_eq_true_eq]
    exact ⟨e.cell, hcell, e, ⟨⟨hmem, rfl⟩, hov⟩, rfl⟩
  have hne : ¬ (collisionsFor cw g e).isEmpty = true := by
    rw [List.isEmpty_iff]
    intro h0
    rw [h0] at hin
    exact absurd hin (List.not_mem_nil _)
  refine ⟨hin, collisionsFor cw g e, ?_, hin⟩
  unfold collidingResult
  rw [if_neg hne]

theorem self_collision_witness :
    (7 : ℕ) ∈ collisionsFor [⟨7, unitBoxAt 0 0, (0, 0)⟩] 100 ⟨7, unitBoxAt 0 0, (0, 0)⟩ ∧
    ∃ l, collidingResult [⟨7, unitBoxAt 0 0, (0, 0)⟩] 100 ⟨7, unitBoxAt 0 0, (0, 0)⟩ = some l ∧
      (7 : ℕ) ∈ l :=
  self_collision [⟨7, unitBoxAt 0 0, (0, 0)⟩] 100 ⟨7, unitBoxAt 0 0, (0, 0)⟩
    (List.mem_singleton.mpr rfl) (by norm_num [unitBoxAt]) (by norm_num [unitBoxAt])

/-! ### Cleanup (claim C4) -/

theorem shouldDestroy_iff (p : ParticleData) :
    shouldDestroy p ↔
      p.lifetime ≥ p.max_lifetime ∨ ∃ d, p.max_distance = some d ∧ p.distance ≥ d := by
  unfold shouldDestroy
  cases hp : p.max_distance with
  | none => simp [hp]
  | some d => simp [hp]

theorem particle_cleanup_survivors (count : ℕ) (ps : List ParticleData) :
    (particle_cleanup count ps).2 = ps.filter fun p => decide (¬ shouldDestroy p) := by
  induction ps generalizing count with
  | nil => rfl
  | cons p rest ih =>
    by_cases h : shouldDestroy p
    · simp [particle_cleanup, h, ih]
    · simp [particle_cleanup, h, ih]

theorem particle_cleanup_count (count : ℕ) (ps : List ParticleData) :
    (particle_cleanup count ps).1 =
      count - (ps.filter fun p => decide (shouldDestroy p)).length := by
  induction ps generalizing count with
  | nil => rfl
  | cons p rest ih =>
    by_cases h : shouldDestroy p
    · rw [show (p :: rest).filter (fun p => decide (shouldDestroy p)) =
          p :: rest.filter (fun p => decide (shouldDestroy p)) from
            List.filter_cons_of_pos (decide_eq_true h)]
      simp only [particle_cleanup, if_pos h, List.length_cons, ih]
      split_ifs <;> omega
    · rw [show (p :: rest).filter (fun p => decide (shouldDestroy p)) =
          rest.filter (fun p => decide (shouldDestroy p)) from
            List.filter_cons_of_neg (by simp [h])]
      simp only [particle_cleanup, if_neg h, ih]

/-- Claim C4: cleanup destroys a particle iff `Lifetime >= max_lifetime` or
`max_distance` is set and `DistanceTraveled >=` it (survivors are exactly
the particles meeting neither condition), and the owning emitter's
`ParticleCount` loses one per destruction but saturates at `0` (the
truncated subtraction by the number of destroyed particles). -/
theorem particle_cleanup_spec (count : ℕ) (ps : List ParticleData) :
    (∀ p, p ∈ (particle_cleanup count ps).2 ↔ p ∈ ps ∧
       ¬ (p.lifetime ≥ p.max_lifetime ∨ ∃ d, p.max_distance = some d ∧ p.distance ≥ d)) ∧
    (particle_cleanup count ps).1 =
      count - (ps.filter fun p => decide (shouldDestroy p)).length := by
  refine ⟨?_, particle_cleanup_count count ps⟩
  intro p
  rw [particle_cleanup_survivors, List.mem_filter]
  simp [shouldDestroy_iff]

/-! ### Burst consumption (claim C10) -/

theorem burstExtra_cases (ps : ParticleSystem) (rs : RunningState) (bi : ℕ) :
    burstExtra ps rs bi = (0, bi) ∨
      ∃ b, ps.bursts.get? bi = some b ∧ burstExtra ps rs bi = (b.count, bi + 1) := by
  unfold burstExtra
  by_cases he : ps.bursts.isEmpty
  · simp [he]
  · simp only [he, if_false, Bool.false_eq_true]
    cases hb : ps.bursts.get? bi with
    | none => simp
    | some b =>
      by_cases ht : rs.running_time ≥ b.time
      · exact Or.inr ⟨b, rfl, by simp [ht]⟩
      · simp [ht]

theorem spawnCompute_burst (ps : ParticleSystem) (count : ℕ) (rs : RunningState) (bi : ℕ) :
    (spawnCompute ps count rs bi).burst_index = (burstExtra ps rs bi).2 ∧
    ((spawnCompute ps count rs bi).extra = 0 ∨
      (spawnCompute ps count rs bi).extra = (burstExtra ps rs bi).1) := by
  simp only [spawnCompute]
  split
  · exact ⟨rfl, Or.inl rfl⟩
  · exact ⟨rfl, Or.inr rfl⟩

theorem capacityAndSpawn_burst (ps : ParticleSystem) (count : ℕ) (rs : RunningState) (bi : ℕ) :
    ((capacityAndSpawn ps count rs bi).burst_index = bi ∧
       (capacityAndSpawn ps count rs bi).extra = 0) ∨
      ∃ b, ps.bursts.get? bi = some b ∧
        (capacityAndSpawn ps count rs bi).burst_index = bi + 1 ∧
        ((capacityAndSpawn ps count rs bi).extra = 0 ∨
          (capacityAndSpawn ps count rs bi).extra = b.count) := by
  unfold capacityAndSpawn
  split
  · exact Or.inl ⟨rfl, rfl⟩
  · obtain ⟨hbi, hex⟩ := spawnCompute_burst ps count rs bi
    rcases burstExtra_cases ps rs bi with h | ⟨b, hb, h⟩
    · rw [h] at hbi hex
      refine Or.inl ⟨hbi, ?_⟩
      rcases hex with h0 | h0 <;> exact h0
    · rw [h] at hbi hex
      exact Or.inr ⟨b, hb, hbi, hex⟩

/-- Claim C10: one spawner invocation consumes at most one burst entry per
emitter: the stored burst index grows by at most 1, and whatever burst count
is added to the spawn total comes from a single burst entry. -/
theorem spawner_burst_once (ps : ParticleSystem) (count : ℕ) (rs : RunningState) (bi : ℕ)
    (dt : ℚ) (tsc : Option ℚ) :
    (particle_spawner ps count rs bi dt tsc).burst_index ≤ bi + 1 ∧
    ((particle_spawner ps count rs bi dt tsc).extra = 0 ∨
      ∃ j b, ps.bursts.get? j = some b ∧
        (particle_spawner ps count rs bi dt tsc).extra = b.count ∧
        (particle_spawner ps count rs bi dt tsc).burst_index = j + 1) := by
  unfold particle_spawner loopCheck
  split
  · split
    · rcases capacityAndSpawn_burst ps count (wrapState ps (advanceTime ps rs dt tsc)) 0 with
        ⟨hbi, hex⟩ | ⟨b, hb, hbi, hex⟩
      · exact ⟨by omega, Or.inl hex⟩
      · refine ⟨by omega, ?_⟩
        rcases hex with h0 | h0
        · exact Or.inl h0
        · exact Or.inr ⟨0, b, hb, h0, hbi⟩
    · exact ⟨Nat.le_succ bi, Or.inl rfl⟩
  · rcases capacityAndSpawn_burst ps count (advanceTime ps rs dt tsc) bi with
      ⟨hbi, hex⟩ | ⟨b, hb, hbi, hex⟩
    · exact ⟨by omega, Or.inl hex⟩
    · refine ⟨by omega, ?_⟩
      rcases hex with h0 | h0
      · exact Or.inl h0
      · exact Or.inr ⟨bi, b, hb, h0, hbi⟩

/-! ### The spawn-count formula (claim C3) -/

theorem advanceTime_running_time (ps : ParticleSystem) (rs : RunningState) (dt : ℚ)
    (tsc : Option ℚ) :
    (advanceTime ps rs dt tsc).running_time = rs.running_time + dt * resolvedTimeScale ps tsc := by
  unfold advanceTime secondRollover
  split <;> rfl

theorem spawnCompute_to_spawn (ps : ParticleSystem) (count : ℕ) (rs : RunningState) (bi : ℕ) :
    (spawnCompute ps count rs bi).to_spawn = forcedToSpawn ps count rs (toSpawnRaw ps count rs) := by
  simp only [spawnCompute]
  split
  · next h => exact h.1.symm
  · rfl

theorem toSpawnRaw_eq (ps : ParticleSystem) (count : ℕ) (rs : RunningState)
    (h2 : count < ps.max_particles) :
    toSpawnRaw ps count rs =
      (min (max (⌊(rs.running_time - (⌊rs.running_time⌋ : ℚ)) * currentSpawnRate ps rs⌋
        - (rs.spawned_this_second : ℤ)) 0) ((ps.max_particles : ℤ) - (count : ℤ))).toNat := by
  unfold toSpawnRaw remainingParticles ratToUsize
  rw [Int.floor_sub_nat]
  rw [show ((ps.max_particles - count : ℕ) : ℚ)
      = ((((ps.max_particles : ℤ) - (count : ℤ) : ℤ)) : ℚ) by
    rw [Nat.cast_sub h2.le]; push_cast; ring]
  rw [show ((0 : ℚ)) = (((0 : ℤ)) : ℚ) by norm_num]
  rw [← Int.cast_min, ← Int.cast_max, ratTrunc_intCast]
  omega

theorem forced_eq_spec (ps : ParticleSystem) (count : ℕ) (rs : RunningState)
    (h2 : count < ps.max_particles) :
    forcedToSpawn ps count rs (toSpawnRaw ps count rs) = specNonBurstSpawnCount ps count rs := by
  rw [forcedToSpawn, toSpawnRaw_eq ps count rs h2]
  simp only [specNonBurstSpawnCount]
  rw [show ps.spawn_rate_per_second (rs.running_time / ps.system_duration_seconds)
      = currentSpawnRate ps rs from rfl]
  have hM0 : (0 : ℤ) ≤ (ps.max_particles : ℤ) - (count : ℤ) := by omega
  apply if_congr _ rfl rfl
  constructor
  · rintro ⟨ha, hb, hc, hd⟩
    exact ⟨by omega, hb, hd, hc⟩
  · rintro ⟨ha, hb, hc, hd⟩
    exact ⟨by omega, hb, hd, hc⟩

/-- Claim C3: for an emitter below capacity whose (advanced) running time
has not reached the system duration, the rate-driven spawn count equals the
spec formula: `floor(fractional_second_progress * rate_at_pct) -
already_spawned_this_second` clamped to `[0, max_particles - count]`, with
a forced single spawn when that is zero, nothing spawned this second yet,
the rate is strictly positive and capacity remains. -/
theorem spawn_count_formula (ps : ParticleSystem) (count : ℕ) (rs : RunningState) (bi : ℕ)
    (dt : ℚ) (tsc : Option ℚ)
    (h1 : (advanceTime ps rs dt tsc).running_time < ps.system_duration_seconds)
    (h2 : count < ps.max_particles) :
    (particle_spawner ps count rs bi dt tsc).to_spawn =
      specNonBurstSpawnCount ps count (advanceTime ps rs dt tsc) := by
  unfold particle_spawner loopCheck capacityAndSpawn
  rw [if_neg (not_le.mpr h1), if_neg (not_le.mpr h2), spawnCompute_to_spawn]
  exact forced_eq_spec ps count (advanceTime ps rs dt tsc) h2

theorem spawn_count_formula_witness :
    (particle_spawner (sampleSystem 10 5 false 10 []) 0 ⟨0, 0, 0⟩ 0 (1/2) none).to_spawn =
      specNonBurstSpawnCount (sampleSystem 10 5 false 10 [])
        0 (advanceTime (sampleSystem 10 5 false 10 []) ⟨0, 0, 0⟩ (1/2) none) :=
  spawn_count_formula (sampleSystem 10 5 false 10 []) 0 ⟨0, 0, 0⟩ 0 (1/2) none
    (by
      rw [advanceTime_running_time]
      norm_num [resolvedTimeScale, sampleSystem])
    (by norm_num [sampleSystem])

/-! ### Particle count accounting (claim C1) -/

theorem spawnCompute_count (ps : ParticleSystem) (count : ℕ) (rs : RunningState) (bi : ℕ) :
    (spawnCompute ps count rs bi).count =
      count + (spawnCompute ps count rs bi).to_spawn + (spawnCompute ps count rs bi).extra := by
  simp only [spawnCompute]
  split <;> rfl

theorem capacityAndSpawn_count (ps : ParticleSystem) (count : ℕ) (rs : RunningState) (bi : ℕ) :
    (capacityAndSpawn ps count rs bi).count =
      count + (capacityAndSpawn ps count rs bi).to_spawn +
        (capacityAndSpawn ps count rs bi).extra := by
  unfold capacityAndSpawn
  split
  · rfl
  · exact spawnCompute_count ps count rs bi

theorem particle_spawner_count (ps : ParticleSystem) (count : ℕ) (rs : RunningState) (bi : ℕ)
    (dt : ℚ) (tsc : Option ℚ) :
    (particle_spawner ps count rs bi dt tsc).count =
      count + (particle_spawner ps count rs bi dt tsc).to_spawn +
        (particle_spawner ps count rs bi dt tsc).extra := by
  unfold particle_spawner loopCheck
  split
  · split
    · exact capacityAndSpawn_count ps count _ 0
    · rfl
  · exact capacityAndSpawn_count ps count _ bi

theorem ratToUsize_le (q : ℚ) (n : ℕ) (hq : q ≤ (n : ℚ)) : ratToUsize q ≤ n := by
  unfold ratToUsize ratTrunc
  split
  · next h0 =>
    have h1 : ⌊q⌋ ≤ (n : ℤ) := by
      have h2 := Int.floor_le_floor hq
      rwa [Int.floor_natCast] at h2
    omega
  · next h0 =>
    push_neg at h0
    have h1 : (0 : ℤ) ≤ ⌊-q⌋ := Int.floor_nonneg.mpr (by linarith)
    omega

theorem toSpawnRaw_le (ps : ParticleSystem) (count : ℕ) (rs : RunningState) :
    toSpawnRaw ps count rs ≤ ps.max_particles - count := by
  unfold toSpawnRaw
  apply ratToUsize_le
  unfold remainingParticles
  exact max_le (min_le_right _ _) (Nat.cast_nonneg _)

theorem spawnCompute_count_le (ps : ParticleSystem) (count : ℕ) (rs : RunningState) (bi : ℕ)
    (h : count < ps.max_particles) :
    (spawnCompute ps count rs bi).extra = 0 →
      (spawnCompute ps count rs bi).count ≤ ps.max_particles := by
  simp only [spawnCompute]
  split
  · exact fun _ => h.le
  · intro hex
    dsimp only at hex ⊢
    have hraw := toSpawnRaw_le ps count rs
    rw [hex]
    unfold forcedToSpawn
    split <;> omega

theorem capacityAndSpawn_count_le (ps : ParticleSystem) (count : ℕ) (rs : RunningState)
    (bi : ℕ) (hm : count ≤ ps.max_particles) :
    (capacityAndSpawn ps count rs bi).extra = 0 →
      (capacityAndSpawn ps count rs bi).count ≤ ps.max_particles := by
  unfold capacityAndSpawn
  split
  · exact fun _ => hm
  · next hlt => exact spawnCompute_count_le ps count rs bi (by omega)

theorem particle_spawner_count_le (ps : ParticleSystem) (count : ℕ) (rs : RunningState)
    (bi : ℕ) (dt : ℚ) (tsc : Option ℚ) (hm : count ≤ ps.max_particles) :
    (particle_spawner ps count rs bi dt tsc).extra = 0 →
      (particle_spawner ps count rs bi dt tsc).count ≤ ps.max_particles := by
  unfold particle_spawner loopCheck
  split
  · split
    · exact capacityAndSpawn_count_le ps count _ 0 hm
    · exact fun _ => hm
  · exact capacityAndSpawn_count_le ps count _ bi hm

/-- Claim C1 amended: after one frame (spawn then cleanup over the frame's
pre-existing particles), `ParticleCount` equals before + spawned − destroyed
(whenever destroyed ≤ before + spawned, as holds when the count tallies the
live particles); it is always ≥ 0, and it stays ≤ `max_particles` provided
the frame fired no burst — a firing burst may push it past capacity. -/
theorem frame_count_conservation (ps : ParticleSystem) (count : ℕ) (rs : RunningState)
    (bi : ℕ) (dt : ℚ) (tsc : Option ℚ) (particles : List ParticleData)
    (hd : (particles.filter fun p => decide (shouldDestroy p)).length ≤
       count + (particle_spawner ps count rs bi dt tsc).to_spawn +
         (particle_spawner ps count rs bi dt tsc).extra)
    (hmax : count ≤ ps.max_particles) :
    (frameCount ps count rs bi dt tsc particles : ℤ) =
      (count : ℤ) + (((particle_spawner ps count rs bi dt tsc).to_spawn +
        (particle_spawner ps count rs bi dt tsc).extra : ℕ) : ℤ) -
        (((particles.filter fun p => decide (shouldDestroy p)).length : ℕ) : ℤ) ∧
    0 ≤ frameCount ps count rs bi dt tsc particles ∧
    ((particle_spawner ps count rs bi dt tsc).extra = 0 →
      frameCount ps count rs bi dt tsc particles ≤ ps.max_particles) := by
  have hsc := particle_spawner_count ps count rs bi dt tsc
  have hcc := particle_cleanup_count (particle_spawner ps count rs bi dt tsc).count particles
  refine ⟨?_, Nat.zero_le _, ?_⟩
  · unfold frameCount
    rw [hcc, hsc]
    omega
  · intro hex
    have hle := particle_spawner_count_le ps count rs bi dt tsc hmax hex
    unfold frameCount
    rw [hcc]
    omega

/-- Counterexample to claim C1 as stated: an emitter with
`max_particles = 2`, one live particle, zero spawn rate and a pending burst
of 10 ends the frame with `ParticleCount = 11 > 2`: a burst is not clamped
by the remaining capacity, so the count leaves `[0, max_particles]`. -/
theorem frame_count_counterexample :
    frameCount (sampleSystem 2 0 false 10 [⟨0, 10⟩]) 1 ⟨0, 0, 0⟩ 0 (1/10) none [] = 11 ∧
    (sampleSystem 2 0 false 10 [⟨0, 10⟩]).max_particles = 2 ∧
    ¬ (frameCount (sampleSystem 2 0 false 10 [⟨0, 10⟩]) 1 ⟨0, 0, 0⟩ 0 (1/10) none [] ≤
        (sampleSystem 2 0 false 10 [⟨0, 10⟩]).max_particles) := by
  have hf2 : (⌊(1/10 : ℚ)⌋ : ℤ) = 0 := by norm_num [Int.floor_eq_iff]
  have h11 : frameCount (sampleSystem 2 0 false 10 [⟨0, 10⟩]) 1 ⟨0, 0, 0⟩ 0 (1/10) none [] = 11 := by
    norm_num [frameCount, particle_cleanup, particle_spawner, advanceTime, secondRollover,
      resolvedTimeScale, loopCheck, capacityAndSpawn, spawnCompute, toSpawnRaw, burstExtra,
      forcedToSpawn, currentSpawnRate, remainingParticles, ratToUsize, ratTrunc,
      sampleSystem, hf2]
  refine ⟨h11, rfl, ?_⟩
  rw [h11]
  norm_num [sampleSystem]

theorem frame_count_conservation_witness :
    (frameCount (sampleSystem 10 5 false 10 []) 0 ⟨0, 0, 0⟩ 0 (1/2) none [] : ℤ) =
      (0 : ℤ) + (((particle_spawner (sampleSystem 10 5 false 10 []) 0 ⟨0, 0, 0⟩ 0 (1/2) none).to_spawn +
        (particle_spawner (sampleSystem 10 5 false 10 []) 0 ⟨0, 0, 0⟩ 0 (1/2) none).extra : ℕ) : ℤ) -
        ((((List.filter (fun p => decide (shouldDestroy p)) []).length : ℕ)) : ℤ) ∧
    0 ≤ frameCount (sampleSystem 10 5 false 10 []) 0 ⟨0, 0, 0⟩ 0 (1/2) none [] ∧
    ((particle_spawner (sampleSystem 10 5 false 10 []) 0 ⟨0, 0, 0⟩ 0 (1/2) none).extra = 0 →
      frameCount (sampleSystem 10 5 false 10 []) 0 ⟨0, 0, 0⟩ 0 (1/2) none [] ≤
        (sampleSystem 10 5 false 10 []).max_particles) :=
  frame_count_conservation (sampleSystem 10 5 false 10 []) 0 ⟨0, 0, 0⟩ 0 (1/2) none []
    (by simp) (by norm_num [sampleSystem])

/-! ### Non-looping completion (claim C8) -/

/-- Claim C8 amended: when a non-looping emitter's advanced running time has
reached the duration, a zero-count emitter is despawned under
`despawn_on_finish` and merely loses `Playing` otherwise; a nonzero-count
emitter spawns nothing and keeps its `ParticleCount` and `BurstIndex`, but
its run state still advances (`running_time` grows by the scaled delta and
the per-second bookkeeping may reset); particle aging is handled by
`particle_lifetime`, which is not gated on `Playing` and advances every
particle's lifetime by the same scaled delta. -/
theorem finish_behavior (ps : ParticleSystem) (count : ℕ) (rs : RunningState) (bi : ℕ)
    (dt : ℚ) (tsc : Option ℚ)
    (hdone : (advanceTime ps rs dt tsc).running_time ≥ ps.system_duration_seconds)
    (hnl : ps.looping = false) :
    (count = 0 → ps.despawn_on_finish = true →
       (particle_spawner ps count rs bi dt tsc).action = EmitterAction.despawn) ∧
    (count = 0 → ps.despawn_on_finish = false →
       (particle_spawner ps count rs bi dt tsc).action = EmitterAction.removePlaying) ∧
    (count ≠ 0 →
       (particle_spawner ps count rs bi dt tsc).action = EmitterAction.keep ∧
       (particle_spawner ps count rs bi dt tsc).to_spawn = 0 ∧
       (particle_spawner ps count rs bi dt tsc).extra = 0 ∧
       (particle_spawner ps count rs bi dt tsc).count = count ∧
       (particle_spawner ps count rs bi dt tsc).burst_index = bi ∧
       (particle_spawner ps count rs bi dt tsc).rs = advanceTime ps rs dt tsc) ∧
    (∀ particles, particle_lifetime ps.use_scaled_time dt tsc particles =
       particles.map fun p =>
         { p with lifetime := p.lifetime + dt * resolvedTimeScale ps tsc }) := by
  unfold particle_spawner loopCheck
  rw [if_pos hdone, hnl]
  simp only [Bool.false_eq_true, if_false]
  refine ⟨?_, ?_, ?_, ?_⟩
  · intro h0 hdesp
    simp [h0, hdesp]
  · intro h0 hdesp
    simp [h0, hdesp]
  · intro h0
    simp [h0]
  · intro particles
    unfold particle_lifetime resolvedTimeScale
    cases tsc with
    | none => cases hu : ps.use_scaled_time <;> simp
    | some t => cases hu : ps.use_scaled_time <;> simp [hu]

theorem finish_behavior_witness :
    ((1 : ℕ) = 0 → (sampleSystem 10 0 false 1 []).despawn_on_finish = true →
       (particle_spawner (sampleSystem 10 0 false 1 []) 1 ⟨3/2, 1, 0⟩ 0 (1/2) none).action =
         EmitterAction.despawn) ∧
    ((1 : ℕ) = 0 → (sampleSystem 10 0 false 1 []).despawn_on_finish = false →
       (particle_spawner (sampleSystem 10 0 false 1 []) 1 ⟨3/2, 1, 0⟩ 0 (1/2) none).action =
         EmitterAction.removePlaying) ∧
    ((1 : ℕ) ≠ 0 →
       (particle_spawner (sampleSystem 10 0 false 1 []) 1 ⟨3/2, 1, 0⟩ 0 (1/2) none).action =
         EmitterAction.keep ∧
       (particle_spawner (sampleSystem 10 0 false 1 []) 1 ⟨3/2, 1, 0⟩ 0 (1/2) none).to_spawn = 0 ∧
       (particle_spawner (sampleSystem 10 0 false 1 []) 1 ⟨3/2, 1, 0⟩ 0 (1/2) none).extra = 0 ∧
       (particle_spawner (sampleSystem 10 0 false 1 []) 1 ⟨3/2, 1, 0⟩ 0 (1/2) none).count = 1 ∧
       (particle_spawner (sampleSystem 10 0 false 1 []) 1 ⟨3/2, 1, 0⟩ 0 (1/2) none).burst_index = 0 ∧
       (particle_spawner (sampleSystem 10 0 false 1 []) 1 ⟨3/2, 1, 0⟩ 0 (1/2) none).rs =
         advanceTime (sampleSystem 10 0 false 1 []) ⟨3/2, 1, 0⟩ (1/2) none) ∧
    (∀ particles, particle_lifetime (sampleSystem 10 0 false 1 []).use_scaled_time (1/2) none particles =
       particles.map fun p =>
         { p with lifetime := p.lifetime + 1/2 * resolvedTimeScale (sampleSystem 10 0 false 1 []) none }) :=
  finish_behavior (sampleSystem 10 0 false 1 []) 1 ⟨3/2, 1, 0⟩ 0 (1/2) none
    (by
      rw [advanceTime_running_time]
      norm_num [resolvedTimeScale, sampleSystem])
    rfl

/-- Counterexample to claim C8 as stated: a finished non-looping emitter with
a nonzero `ParticleCount` does not keep its run state unchanged — the
spawner has already advanced `running_time` (and here also the per-second
bookkeeping) before skipping the spawn. -/
theorem finish_run_state_counterexample :
    (advanceTime (sampleSystem 10 0 false 1 []) ⟨3/2, 1, 0⟩ (1/2) none).running_time ≥
      (sampleSystem 10 0 false 1 []).system_duration_seconds ∧
    (sampleSystem 10 0 false 1 []).looping = false ∧
    (1 : ℕ) ≠ 0 ∧
    (particle_spawner (sampleSystem 10 0 false 1 []) 1 ⟨3/2, 1, 0⟩ 0 (1/2) none).rs ≠
      (⟨3/2, 1, 0⟩ : RunningState) := by
  have hdone : (advanceTime (sampleSystem 10 0 false 1 []) ⟨3/2, 1, 0⟩ (1/2) none).running_time ≥
      (sampleSystem 10 0 false 1 []).system_duration_seconds := by
    rw [advanceTime_running_time]
    norm_num [resolvedTimeScale, sampleSystem]
  have hrs : (particle_spawner (sampleSystem 10 0 false 1 []) 1 ⟨3/2, 1, 0⟩ 0 (1/2) none).rs =
      advanceTime (sampleSystem 10 0 false 1 []) ⟨3/2, 1, 0⟩ (1/2) none := by
    unfold particle_spawner loopCheck
    rw [if_pos hdone]
    simp [sampleSystem]
  have hrt : (particle_spawner (sampleSystem 10 0 false 1 []) 1 ⟨3/2, 1, 0⟩ 0 (1/2) none).rs.running_time
      = 2 := by
    rw [hrs, advanceTime_running_time]
    norm_num [resolvedTimeScale, sampleSystem]
  refine ⟨hdone, rfl, by decide, ?_⟩
  intro h
  rw [h] at hrt
  norm_num at hrt

end Prim
